import Mathlib

/-!
Verification of the libabigail native-XML reader (`src/abg-reader.cc`).

The development shallowly embeds the reader: XML element nodes become an
inductive tree, the attribute readers become pure functions, the
identifier-resolution tables of `read_context` become association lists,
the node builders (`build_*`) become state-passing functions returning an
explicit outcome (a node, a null pointer, or an assertion failure /
`abort()`), and the depth-driven scope-stack reconstruction of
`update_depth_info_of_read_context` becomes a function on an explicit
stack.  External collaborators (libxml, libzip, the IR class hierarchy of
`abg-ir`) are modelled only to the extent the reader observes them, and
each such modelling choice is flagged in its doc comment.
-/

namespace Abg

/-- Lookup in an association list keyed by strings; models both
`xmlGetProp`/`XML_NODE_GET_ATTRIBUTE` over an element's attributes and
`unordered_map::find` over the reader's ID tables. -/
def assoc_find {α : Type} : List (String × α) → String → Option α
  | [], _ => none
  | (k, v) :: rest, id => if k = id then some v else assoc_find rest id

/-- Model of the C library `atoi` (an external collaborator): parse an
optional leading minus sign followed by leading decimal digits, 0 when the
string starts with anything else. -/
def atoi_digits : List Char → Nat → Nat
  | [], acc => acc
  | c :: cs, acc =>
    if c.isDigit then atoi_digits cs (acc * 10 + (c.toNat - Char.toNat '0')) else acc

/-- Model of the C library `atoi`, see `atoi_digits`. -/
def atoi (s : String) : Int :=
  match s.data with
  | '-' :: cs => - (atoi_digits cs 0 : Int)
  | cs => (atoi_digits cs 0 : Int)

/-- `xml::unescape_xml_string` is an external string-escaping utility (the
spec treats it as an opaque service, out of scope); it is modelled as the
identity on the already-unescaped strings used in this development. -/
def unescape_xml_string (s : String) : String := s

/-- An XML node as the reader observes it through libxml: an element with a
tag name, attributes and children, or a non-element node (text, comments),
which every child loop in the reader skips via
`n->type != XML_ELEMENT_NODE`. -/
inductive XmlNode where
  | elem (tag : String) (attrs : List (String × String)) (children : List XmlNode)
  | text (content : String)

/-- Attribute list of a node (empty for non-elements). -/
def XmlNode.attrs : XmlNode → List (String × String)
  | .elem _ a _ => a
  | .text _ => []

/-- Tag name of a node (empty for non-elements). -/
def XmlNode.tag : XmlNode → String
  | .elem t _ _ => t
  | .text _ => ""

/-- Children of a node (empty for non-elements). -/
def XmlNode.children : XmlNode → List XmlNode
  | .elem _ _ c => c
  | .text _ => []

/-- Whether the node is an XML element (`n->type == XML_ELEMENT_NODE`). -/
def XmlNode.is_element : XmlNode → Bool
  | .elem _ _ _ => true
  | .text _ => false

/-- Model of the `XML_NODE_GET_ATTRIBUTE` / `xmlGetProp` attribute
lookup on an element node. -/
def xml_node_get_attribute (n : XmlNode) (name : String) : Option String :=
  assoc_find n.attrs name

/-- Attribute value, defaulted to the empty string when absent: the common
`string x; if (xml_char_sptr s = ...) x = CHAR_STR(s);` idiom of the
reader. -/
def attr_or_empty (n : XmlNode) (name : String) : String :=
  (xml_node_get_attribute n name).getD ""

/-- `decl_base::visibility` from abg-ir (only its enumerator set is
observed by the reader). -/
inductive Visibility where
  | VISIBILITY_NONE
  | VISIBILITY_DEFAULT
  | VISIBILITY_HIDDEN
  | VISIBILITY_INTERNAL
  | VISIBILITY_PROTECTED
deriving DecidableEq, Repr

/-- `decl_base::binding` from abg-ir. -/
inductive Binding where
  | BINDING_NONE
  | BINDING_GLOBAL
  | BINDING_LOCAL
  | BINDING_WEAK
deriving DecidableEq, Repr

/-- `class_decl::access_specifier` from abg-ir. -/
inductive AccessSpecifier where
  | private_access
  | protected_access
  | public_access
deriving DecidableEq, Repr

/-- Source-location value (`location` handles; the location manager's
interning is an external service, so the handle is modelled by its
content).  `no_loc` is the default-constructed `location()`. -/
inductive Location where
  | no_loc
  | at_loc (file : String) (line column : Int)
deriving DecidableEq, Repr

/-- `read_location(ctxt, node, loc)` (abg-reader.cc:867): reads the
filepath/line/column attributes of `node`; when `filepath` is absent or
empty `loc` keeps its prior (default) value and the function returns
false.  Missing line or column default to 0 through `atoi` on nothing. -/
def read_location_of_node (node : XmlNode) : Bool × Location :=
  let file_path := attr_or_empty node "filepath"
  if file_path = "" then (false, .no_loc)
  else
    (true, .at_loc file_path
      (atoi (attr_or_empty node "line"))
      (atoi (attr_or_empty node "column")))

/-- `read_visibility` (abg-reader.cc:901): reads the `visibility`
attribute into the out-parameter `vis`, leaving it unchanged when the
attribute is absent; an unrecognized value maps to
`VISIBILITY_DEFAULT`.  Returns (return value, resulting `vis`). -/
def read_visibility (node : XmlNode) (vis : Visibility) : Bool × Visibility :=
  match xml_node_get_attribute node "visibility" with
  | some v =>
    if v = "default" then (true, .VISIBILITY_DEFAULT)
    else if v = "hidden" then (true, .VISIBILITY_HIDDEN)
    else if v = "internal" then (true, .VISIBILITY_INTERNAL)
    else if v = "protected" then (true, .VISIBILITY_PROTECTED)
    else (true, .VISIBILITY_DEFAULT)
  | none => (false, vis)

/-- `read_binding` (abg-reader.cc:930): reads the `binding` attribute;
an unrecognized value maps to `BINDING_GLOBAL`. -/
def read_binding (node : XmlNode) (bind : Binding) : Bool × Binding :=
  match xml_node_get_attribute node "binding" with
  | some b =>
    if b = "global" then (true, .BINDING_GLOBAL)
    else if b = "local" then (true, .BINDING_LOCAL)
    else if b = "weak" then (true, .BINDING_WEAK)
    else (true, .BINDING_GLOBAL)
  | none => (false, bind)

/-- `read_access` (abg-reader.cc:958): reads the `access` attribute; an
unrecognized value maps to `private_access`. -/
def read_access (node : XmlNode) (access : AccessSpecifier) : Bool × AccessSpecifier :=
  match xml_node_get_attribute node "access" with
  | some a =>
    if a = "private" then (true, .private_access)
    else if a = "protected" then (true, .protected_access)
    else if a = "public" then (true, .public_access)
    else (true, .private_access)
  | none => (false, access)

/-- `read_size_and_alignment` (abg-reader.cc:995): reads `size-in-bits`
and `alignment-in-bits`, leaving each out-parameter untouched when its
attribute is absent; returns true iff at least one was present. -/
def read_size_and_alignment (node : XmlNode) (size_in_bits align_in_bits : Int) :
    Bool × Int × Int :=
  let (got1, size) :=
    match xml_node_get_attribute node "size-in-bits" with
    | some s => (true, atoi s)
    | none => (false, size_in_bits)
  let (got2, align) :=
    match xml_node_get_attribute node "alignment-in-bits" with
    | some s => (true, atoi s)
    | none => (false, align_in_bits)
  (got1 || got2, size, align)

/-- `read_static` (abg-reader.cc:1025): the `static` attribute; set to
whether the value is `yes` when present, untouched otherwise. -/
def read_static (node : XmlNode) (is_static : Bool) : Bool × Bool :=
  match xml_node_get_attribute node "static" with
  | some b => (true, b = "yes")
  | none => (false, is_static)

/-- `read_offset_in_bits` (abg-reader.cc:1043): the
`layout-offset-in-bits` attribute. -/
def read_offset_in_bits (node : XmlNode) (offset_in_bits : Int) : Bool × Int :=
  match xml_node_get_attribute node "layout-offset-in-bits" with
  | some s => (true, atoi s)
  | none => (false, offset_in_bits)

/-- `read_cdtor_const` (abg-reader.cc:1076): reads the `constructor`,
`destructor` and `const` attributes into the three out-parameters.  The
source returns as soon as the first of the three attributes is found, so
at most one out-parameter is ever written per call; the others keep the
values the caller initialized them to.  Result:
(return value, is_constructor, is_destructor, is_const). -/
def read_cdtor_const (node : XmlNode) (is_constructor is_destructor is_const : Bool) :
    Bool × Bool × Bool × Bool :=
  match xml_node_get_attribute node "constructor" with
  | some b => (true, b = "yes", is_destructor, is_const)
  | none =>
    match xml_node_get_attribute node "destructor" with
    | some b => (true, is_constructor, b = "yes", is_const)
    | none =>
      match xml_node_get_attribute node "const" with
      | some b => (true, is_constructor, is_destructor, b = "yes")
      | none => (false, is_constructor, is_destructor, is_const)

/-- `read_is_declaration_only` (abg-reader.cc:1126): the
`is-declaration-only` attribute, true iff present and equal to `yes`. -/
def read_is_declaration_only (node : XmlNode) (is_decl_only : Bool) : Bool × Bool :=
  match xml_node_get_attribute node "is-declaration-only" with
  | some s => (true, s = "yes")
  | none => (false, is_decl_only)

/-- `read_is_virtual` (abg-reader.cc:1149): the `is-virtual` attribute,
true iff present and equal to `yes`. -/
def read_is_virtual (node : XmlNode) (is_virtual : Bool) : Bool × Bool :=
  match xml_node_get_attribute node "is-virtual" with
  | some s => (true, s = "yes")
  | none => (false, is_virtual)

/-! ## Scope-stack reconstruction (update_depth_info_of_read_context) -/

/-- An entry of the reader's `m_decls_stack`, abstracted to what the
depth-correction logic inspects.  `at_class_scope` models the result of
the external abg-ir helper `is_at_class_scope` on the entry (whether the
declaration's semantic scope is a class); `tag` is only a label. -/
structure StackDecl where
  at_class_scope : Bool
  tag : String
deriving DecidableEq, Repr

/-- Modelled from the spec: `is_at_class_scope` (abg-ir, not under src/)
tests whether a declaration's semantic scope is "inside a class"; a null
declaration (the result of popping an empty stack) is not at class
scope. -/
def is_at_class_scope : Option StackDecl → Bool
  | some d => d.at_class_scope
  | none => false

/-- State of the depth tracking in `read_context`: the recorded depth
`m_depth` and the stack of IR declarations `m_decls_stack` (top first). -/
structure DepthState where
  depth : Int
  decls_stack : List StackDecl
deriving DecidableEq, Repr

/-- The pop loop of `update_depth_info_of_read_context`
(abg-reader.cc:563): `for (int nb = d0 - d + 1; nb; --nb)` pops one entry
per iteration (`pop_decl`, a no-op returning null on an empty stack), and
when the popped entry is at class scope while `nb > 2`, performs an extra
`nb--` so that one fewer entry is popped overall. -/
def update_depth_pop_loop : Nat → List StackDecl → List StackDecl
  | 0, s => s
  | nb + 1, s =>
    if is_at_class_scope s.head? && decide (nb + 1 > 2) then
      update_depth_pop_loop (nb - 1) s.tail
    else
      update_depth_pop_loop nb s.tail

/-- `update_depth_info_of_read_context` (abg-reader.cc:551): on a new
depth observation, do nothing if we went down the tree; otherwise pop
`d0 - d + 1` entries subject to the class-scope correction; finally
record the new depth. -/
def update_depth_info_of_read_context (ctxt : DepthState) (new_depth : Int) : DepthState :=
  let ctxt_depth := ctxt.depth
  if new_depth > ctxt_depth then
    { ctxt with depth := new_depth }
  else
    { depth := new_depth,
      decls_stack :=
        update_depth_pop_loop (ctxt_depth - new_depth + 1).toNat ctxt.decls_stack }

/-- The number of stack entries the claim says the pop phase removes:
starting from the XML-level count `d0 - d + 1`, one entry is popped per
step, except that a popped class-scope entry met while the remaining pop
count exceeds 2 causes one fewer pop (the count drops by 2 instead of 1).
This definition follows the words of the specification and is compared
with the source-derived `update_depth_pop_loop`. -/
def claimed_pop_count : Nat → List StackDecl → Nat
  | 0, _ => 0
  | nb + 1, s =>
    if is_at_class_scope s.head? && decide (nb + 1 > 2) then
      1 + claimed_pop_count (nb - 1) s.tail
    else
      1 + claimed_pop_count nb s.tail

/-- The source's pop loop removes exactly the entries the claimed count
describes: the resulting stack is the original with that many entries
dropped. -/
theorem update_depth_pop_loop_eq_drop (nb : Nat) (s : List StackDecl) :
    update_depth_pop_loop nb s = s.drop (claimed_pop_count nb s) := by
  induction nb using Nat.strong_induction_on generalizing s with
  | _ nb ih =>
    match nb, s with
    | 0, s => simp [update_depth_pop_loop, claimed_pop_count]
    | nb + 1, [] =>
      rw [update_depth_pop_loop, claimed_pop_count]
      simp only [List.head?_nil, is_at_class_scope, Bool.false_and, if_neg Bool.false_ne_true,
        List.tail_nil]
      rw [ih nb (Nat.lt_succ_self nb) []]
      simp
    | nb + 1, d :: rest =>
      rw [update_depth_pop_loop, claimed_pop_count]
      by_cases h : is_at_class_scope (d :: rest).head? && decide (nb + 1 > 2)
      · rw [if_pos h, if_pos h]
        simp only [List.tail_cons]
        rw [ih (nb - 1) (by omega) rest, Nat.add_comm 1, List.drop_succ_cons]
      · rw [if_neg h, if_neg h]
        simp only [List.tail_cons]
        rw [ih nb (Nat.lt_succ_self nb) rest, Nat.add_comm 1, List.drop_succ_cons]

/-! ## IR nodes

The IR class hierarchy lives in abg-ir (an external collaborator); the
reader only constructs nodes and populates the fields below, so the
hierarchy is modelled as one closed tagged variant (the representation
the spec itself recommends): `dynamic_pointer_cast` checks become tag
tests.  Shared-pointer aliasing is modelled by storing node values:
no node is mutated after the reader puts it in a table, except the
class-member population that happens before registration and is modelled
by building the member lists first. -/

mutual

/-- One IR node: each constructor corresponds to one node class the
reader instantiates (`type_decl`, `qualified_type_def`, ...,
`class_decl`, and the four template-parameter kinds, which the reader
also stores in the type table). -/
inductive TypeNode where
  | type_decl (name : String) (size_in_bits alignment_in_bits : Int) (loc : Location)
  | qualified_type_def (underlying : TypeNode) (cv_const cv_volatile : Bool) (loc : Location)
  | pointer_type_def (pointee : TypeNode) (size_in_bits alignment_in_bits : Int) (loc : Location)
  | reference_type_def (referent : TypeNode) (is_lvalue : Bool)
      (size_in_bits alignment_in_bits : Int) (loc : Location)
  | enum_type_decl (name : String) (loc : Location) (underlying : TypeNode)
      (enums : List (String × Int))
  | typedef_decl (name : String) (underlying : TypeNode) (loc : Location)
  | class_decl (name : String) (size_in_bits alignment_in_bits : Int) (loc : Location)
      (vis : Visibility) (is_declaration_only : Bool) (earlier_declaration : Option TypeNode)
      (bases : List BaseSpec) (data_members : List DataMember) (member_fns : List MemberFn)
      (member_fn_tmpls : List MemberFnTmpl) (member_class_tmpls : List MemberClassTmpl)
  | type_tparameter (index : Nat) (name : String) (loc : Location)
  | non_type_tparameter (index : Nat) (name : String) (type : TypeNode) (loc : Location)
  | template_tparameter (index : Nat) (name : String) (loc : Location) (parms : List TypeNode)
  | type_composition (index : Nat) (composed : Option TypeNode)

/-- `class_decl::base_spec`: base class, access, layout offset (-1 when
the `layout-offset-in-bits` attribute was absent) and virtual-base
flag. -/
inductive BaseSpec where
  | mk (base : TypeNode) (access : AccessSpecifier) (offset_in_bits : Int) (is_virtual : Bool)

/-- `var_decl`. -/
inductive VarDeclNode where
  | mk (name : String) (type : TypeNode) (loc : Location) (mangled_name : String)
      (vis : Visibility) (bind : Binding)

/-- A data member as recorded by `class_decl::add_data_member`. -/
inductive DataMember where
  | mk (v : VarDeclNode) (access : AccessSpecifier) (is_laid_out is_static : Bool)
      (offset_in_bits : Int)

/-- `function_decl::parameter`; `type` is null (none) for the variadic
marker parameter. -/
inductive ParmNode where
  | mk (type : Option TypeNode) (name : String) (loc : Location)
      (is_variadic is_artificial : Bool)

/-- `function_decl` (or `class_decl::method_decl` when `method_of` names
the owning class: the owning-class back-pointer of `method_type` is
modelled by the class name to keep the node graph a tree). -/
inductive FnDeclNode where
  | mk (name mangled_name : String) (declared_inline : Bool) (loc : Location)
      (vis : Visibility) (bind : Binding) (method_of : Option String)
      (size_in_bits alignment_in_bits : Int)
      (parms : List ParmNode) (return_type : Option TypeNode)

/-- A member function as recorded by `class_decl::add_member_function`. -/
inductive MemberFn where
  | mk (f : FnDeclNode) (access : AccessSpecifier) (vtable_offset : Int)
      (is_static is_constructor is_destructor is_const : Bool)

/-- `function_tdecl`. -/
inductive FnTmplNode where
  | mk (loc : Location) (vis : Visibility) (bind : Binding)
      (parms : List TypeNode) (pattern : Option FnDeclNode)

/-- `class_tdecl`. -/
inductive ClassTmplNode where
  | mk (loc : Location) (vis : Visibility)
      (parms : List TypeNode) (pattern : Option TypeNode)

/-- `class_decl::member_function_template`. -/
inductive MemberFnTmpl where
  | mk (f : FnTmplNode) (access : AccessSpecifier) (is_static is_constructor is_const : Bool)

/-- `class_decl::member_class_template`. -/
inductive MemberClassTmpl where
  | mk (c : ClassTmplNode) (access : AccessSpecifier) (is_static : Bool)

end

/-- Whether a type node is a `class_decl` (`dynamic_pointer_cast<class_decl>`
succeeding). -/
def TypeNode.is_class : TypeNode → Bool
  | .class_decl _ _ _ _ _ _ _ _ _ _ _ _ => true
  | _ => false

/-- `class_decl::is_declaration_only()`; false on non-class nodes. -/
def TypeNode.class_is_declaration_only : TypeNode → Bool
  | .class_decl _ _ _ _ _ d _ _ _ _ _ _ => d
  | _ => false

/-- The `earlier declaration` back-reference of a class definition
(`class_decl::get_earlier_declaration`); none on non-class nodes. -/
def TypeNode.class_earlier_declaration : TypeNode → Option TypeNode
  | .class_decl _ _ _ _ _ _ e _ _ _ _ _ => e
  | _ => none

/-- Name of a class node; empty on non-class nodes. -/
def TypeNode.class_name : TypeNode → String
  | .class_decl n _ _ _ _ _ _ _ _ _ _ _ => n
  | _ => ""

/-- Base-class specifiers of a class node. -/
def TypeNode.class_bases : TypeNode → List BaseSpec
  | .class_decl _ _ _ _ _ _ _ b _ _ _ _ => b
  | _ => []

/-- Data members of a class node. -/
def TypeNode.class_data_members : TypeNode → List DataMember
  | .class_decl _ _ _ _ _ _ _ _ d _ _ _ => d
  | _ => []

/-- Member functions of a class node. -/
def TypeNode.class_member_fns : TypeNode → List MemberFn
  | .class_decl _ _ _ _ _ _ _ _ _ f _ _ => f
  | _ => []

/-- Member function templates of a class node. -/
def TypeNode.class_member_fn_tmpls : TypeNode → List MemberFnTmpl
  | .class_decl _ _ _ _ _ _ _ _ _ _ t _ => t
  | _ => []

/-- Member class templates of a class node. -/
def TypeNode.class_member_class_tmpls : TypeNode → List MemberClassTmpl
  | .class_decl _ _ _ _ _ _ _ _ _ _ _ t => t
  | _ => []

/-- Enumerators of an enum node, in construction order. -/
def TypeNode.enum_enumerators : TypeNode → List (String × Int)
  | .enum_type_decl _ _ _ es => es
  | _ => []

/-- Return type of a function node. -/
def FnDeclNode.return_type : FnDeclNode → Option TypeNode
  | .mk _ _ _ _ _ _ _ _ _ _ r => r

/-- The `const` flag of a recorded member function. -/
def MemberFn.is_const : MemberFn → Bool
  | .mk _ _ _ _ _ _ c => c

/-- The `constructor` flag of a recorded member function. -/
def MemberFn.is_constructor : MemberFn → Bool
  | .mk _ _ _ _ c _ _ => c

/-! ## Identifier-resolution tables (the maps of read_context) -/

/-- The three per-context ID tables of `read_context`: `m_types_map`,
`m_fn_tmpl_map` and `m_class_tmpl_map` (unordered maps modelled as
association lists; the reader only observes find/insert/erase/clear). -/
structure ReadMaps where
  types_map : List (String × TypeNode)
  fn_tmpl_map : List (String × FnTmplNode)
  class_tmpl_map : List (String × ClassTmplNode)

/-- A context whose three tables are empty (a freshly constructed
`read_context`). -/
def empty_maps : ReadMaps := ⟨[], [], []⟩

/-- `read_context::get_type_decl` (abg-reader.cc:109): the type
identified by `id`, null when none was keyed. -/
def get_type_decl (m : ReadMaps) (id : String) : Option TypeNode :=
  assoc_find m.types_map id

/-- `read_context::get_fn_tmpl_decl` (abg-reader.cc:129). -/
def get_fn_tmpl_decl (m : ReadMaps) (id : String) : Option FnTmplNode :=
  assoc_find m.fn_tmpl_map id

/-- `read_context::get_class_tmpl_decl` (abg-reader.cc:148). -/
def get_class_tmpl_decl (m : ReadMaps) (id : String) : Option ClassTmplNode :=
  assoc_find m.class_tmpl_map id

/-- `read_context::clear_type_map` (abg-reader.cc:217): clears
`m_types_map` only. -/
def clear_type_map (m : ReadMaps) : ReadMaps :=
  { m with types_map := [] }

/-- `read_context::key_type_decl` (abg-reader.cc:230): associate `id`
with `type`; returns false without touching the table when `id` is
already keyed. -/
def key_type_decl (m : ReadMaps) (type : TypeNode) (id : String) : Bool × ReadMaps :=
  match assoc_find m.types_map id with
  | some _ => (false, m)
  | none => (true, { m with types_map := (id, type) :: m.types_map })

/-- Remove the entry with the given key (the `erase` call of
`key_replacement_of_type_decl`). -/
def assoc_erase {α : Type} : List (String × α) → String → List (String × α)
  | [], _ => []
  | (k, v) :: rest, id => if k = id then rest else (k, v) :: assoc_erase rest id

/-- `read_context::key_replacement_of_type_decl` (abg-reader.cc:255):
erase any existing mapping for `id`, key the definition, and return
true.  Note: no caller in abg-reader.cc ever invokes this function. -/
def key_replacement_of_type_decl (m : ReadMaps) (definition : TypeNode) (id : String) :
    Bool × ReadMaps :=
  let m1 := { m with types_map := assoc_erase m.types_map id }
  (true, (key_type_decl m1 definition id).2)

/-- `read_context::key_fn_tmpl_decl` (abg-reader.cc:276). -/
def key_fn_tmpl_decl (m : ReadMaps) (fn_tmpl_decl : FnTmplNode) (id : String) :
    Bool × ReadMaps :=
  match assoc_find m.fn_tmpl_map id with
  | some _ => (false, m)
  | none => (true, { m with fn_tmpl_map := (id, fn_tmpl_decl) :: m.fn_tmpl_map })

/-- `read_context::key_class_tmpl_decl` (abg-reader.cc:299). -/
def key_class_tmpl_decl (m : ReadMaps) (class_tmpl_decl : ClassTmplNode) (id : String) :
    Bool × ReadMaps :=
  match assoc_find m.class_tmpl_map id with
  | some _ => (false, m)
  | none => (true, { m with class_tmpl_map := (id, class_tmpl_decl) :: m.class_tmpl_map })

/-- `read_context::push_and_key_type_decl` (abg-reader.cc:366): pushes
the decl to the current scope (scope attachment is not part of the
modelled state) and keys the type, ignoring `key_type_decl`'s return
value; returns true for the node kinds the reader passes (all cast to
`decl_base`). -/
def push_and_key_type_decl (m : ReadMaps) (t : TypeNode) (id : String) : Bool × ReadMaps :=
  (true, (key_type_decl m t id).2)

/-- The table-clearing step performed when a new translation-unit
document begins (`read_translation_unit_from_input`, abg-reader.cc:632):
the driver calls `ctxt.clear_type_map()` and nothing else on the
tables. -/
def new_translation_unit_document_begin (m : ReadMaps) : ReadMaps :=
  clear_type_map m

/-! ## Node builders

Each `build_xxx` models the like-named static function of abg-reader.cc.
A builder's outcome is one of: the built node together with the updated
tables (`ok`), a null pointer returned to the caller (`nil`, used for
tag mismatches and the template-duplicate check), or `fatal` for a
failed `assert()` or an `abort()` call, which terminates the process.
Scope attachment (`push_decl_to_current_scope`) and the depth updates
triggered by the `update_depth_info` flag only touch the decls stack,
which is modelled separately (`DepthState`); neither affects the tables
or the built nodes, so the builders here thread only `ReadMaps`. -/

/-- Outcome of a node builder. -/
inductive BuildRes (α : Type) where
  | ok (val : α) (m : ReadMaps)
  | nil (m : ReadMaps)
  | fatal

/-- Outcome of a child-processing loop (such loops never return null). -/
inductive LoopRes (α : Type) where
  | ok (val : α) (m : ReadMaps)
  | fatal

/-- Accumulated member lists while processing `class-decl` children
(the source adds them to the class object one by one via the abg-ir
`add_*` member functions; the lists are in call order). -/
structure ClassAcc where
  bases : List BaseSpec
  data_members : List DataMember
  member_fns : List MemberFn
  member_fn_tmpls : List MemberFnTmpl
  member_class_tmpls : List MemberClassTmpl

/-- Child loop of `build_enum_type_decl` (abg-reader.cc:1617): collects
the `type-id` of the last `underlying-type` child and the (name, value)
pairs of the `enumerator` children, in document order; every other child
is skipped. -/
def enum_kids : List XmlNode → String → List (String × Int) → String × List (String × Int)
  | [], base_type_id, enums => (base_type_id, enums)
  | n :: rest, base_type_id, enums =>
    match n with
    | .text _ => enum_kids rest base_type_id enums
    | .elem ntag nattrs _ =>
      let nd := XmlNode.elem ntag nattrs []
      if ntag = "underlying-type" then
        match xml_node_get_attribute nd "type-id" with
        | some a => enum_kids rest a enums
        | none => enum_kids rest base_type_id enums
      else if ntag = "enumerator" then
        let name :=
          match xml_node_get_attribute nd "name" with
          | some a => unescape_xml_string a
          | none => ""
        let value :=
          match xml_node_get_attribute nd "value" with
          | some a => atoi a
          | none => 0
        enum_kids rest base_type_id (enums ++ [(name, value)])
      else enum_kids rest base_type_id enums

/-- `build_function_parameter` (abg-reader.cc:1170): parameter type
resolved from `type-id`; `assert(type || is_variadic)`. -/
def build_function_parameter (m : ReadMaps) (node : XmlNode) : BuildRes ParmNode :=
  match node with
  | .text _ => .nil m
  | .elem tag attrs _ =>
    let nd := XmlNode.elem tag attrs []
    if tag = "parameter" then
      let is_variadic : Bool := attr_or_empty nd "is-variadic" = "yes"
      let is_artificial : Bool := attr_or_empty nd "is-artificial" = "yes"
      let type_id := attr_or_empty nd "type-id"
      let type := get_type_decl m type_id
      if type.isNone && !is_variadic then .fatal
      else
        let name := attr_or_empty nd "name"
        let loc := (read_location_of_node nd).2
        .ok (.mk type name loc is_variadic is_artificial) m
    else .nil m

/-- Child loop of `build_function_decl` (abg-reader.cc:1293): `parameter`
children are appended in document order when their builder succeeds; a
`return` child with a non-empty `type-id` stores whatever
`get_type_decl` yields for it, a null pointer included. -/
def fn_decl_kids (m : ReadMaps) (l : List XmlNode) (parms : List ParmNode)
    (ret : Option TypeNode) : LoopRes (List ParmNode × Option TypeNode) :=
  match l with
  | [] => .ok (parms, ret) m
  | n :: rest =>
    match n with
    | .text _ => fn_decl_kids m rest parms ret
    | .elem ntag nattrs nkids =>
      let nd := XmlNode.elem ntag nattrs nkids
      if ntag = "parameter" then
        match build_function_parameter m nd with
        | .fatal => .fatal
        | .ok p _ => fn_decl_kids m rest (parms ++ [p]) ret
        | .nil _ => fn_decl_kids m rest parms ret
      else if ntag = "return" then
        let type_id := attr_or_empty nd "type-id"
        if type_id = "" then fn_decl_kids m rest parms ret
        else fn_decl_kids m rest parms (get_type_decl m type_id)
      else fn_decl_kids m rest parms ret

/-- `build_function_decl` (abg-reader.cc:1237): reads the identifying
attributes, then walks the children collecting parameters and resolving
the return type. -/
def build_function_decl (m : ReadMaps) (node : XmlNode) (as_method_decl : Option String)
    (update_depth_info add_to_current_scope : Bool) : BuildRes FnDeclNode :=
  match node with
  | .text _ => .nil m
  | .elem tag attrs kids =>
    let nd := XmlNode.elem tag attrs []
    if tag = "function-decl" then
      let name := unescape_xml_string (attr_or_empty nd "name")
      let mangled_name := unescape_xml_string (attr_or_empty nd "mangled-name")
      let declared_inline := attr_or_empty nd "declared-inline" = "yes"
      let vis := (read_visibility nd .VISIBILITY_NONE).2
      let bind := (read_binding nd .BINDING_NONE).2
      let (_, size, align) := read_size_and_alignment nd 0 0
      let loc := (read_location_of_node nd).2
      match fn_decl_kids m kids [] none with
      | .fatal => .fatal
      | .ok (parms, ret) m1 =>
        .ok (.mk name mangled_name declared_inline loc vis bind as_method_decl
              size align parms ret) m1
    else .nil m

/-- `build_var_decl` (abg-reader.cc:1326): the declared type must resolve
(`assert(underlying_type)`). -/
def build_var_decl (m : ReadMaps) (node : XmlNode)
    (update_depth_info add_to_current_scope : Bool) : BuildRes VarDeclNode :=
  match node with
  | .text _ => .nil m
  | .elem tag attrs _ =>
    let nd := XmlNode.elem tag attrs []
    if tag = "var-decl" then
      let name := unescape_xml_string (attr_or_empty nd "name")
      let type_id := attr_or_empty nd "type-id"
      match get_type_decl m type_id with
      | none => .fatal
      | some underlying_type =>
        let mangled_name := unescape_xml_string (attr_or_empty nd "mangled-name")
        let vis := (read_visibility nd .VISIBILITY_NONE).2
        let bind := (read_binding nd .BINDING_NONE).2
        let locus := (read_location_of_node nd).2
        .ok (.mk name underlying_type locus mangled_name vis bind) m
    else .nil m

/-- `build_type_decl` (abg-reader.cc:1377): `assert(!ctxt.get_type_decl(id))`,
then construct and `push_and_key_type_decl`. -/
def build_type_decl (m : ReadMaps) (node : XmlNode)
    (update_depth_info add_to_current_scope : Bool) : BuildRes TypeNode :=
  match node with
  | .text _ => .nil m
  | .elem tag attrs _ =>
    let nd := XmlNode.elem tag attrs []
    if tag = "type-decl" then
      let name := unescape_xml_string (attr_or_empty nd "name")
      let id := attr_or_empty nd "id"
      let size_in_bits :=
        match xml_node_get_attribute nd "size-in-bits" with
        | some s => atoi s
        | none => 0
      let alignment_in_bits :=
        match xml_node_get_attribute nd "alignment-in-bits" with
        | some s => atoi s
        | none => 0
      let loc := (read_location_of_node nd).2
      match get_type_decl m id with
      | some _ => .fatal
      | none =>
        let decl := TypeNode.type_decl name size_in_bits alignment_in_bits loc
        .ok decl (push_and_key_type_decl m decl id).2
    else .nil m

/-- `build_qualified_type_decl` (abg-reader.cc:1427): the underlying type
must resolve; the id must be non-empty and fresh. -/
def build_qualified_type_decl (m : ReadMaps) (node : XmlNode)
    (update_depth_info add_to_current_scope : Bool) : BuildRes TypeNode :=
  match node with
  | .text _ => .nil m
  | .elem tag attrs _ =>
    let nd := XmlNode.elem tag attrs []
    if tag = "qualified-type-def" then
      let type_id := attr_or_empty nd "type-id"
      match get_type_decl m type_id with
      | none => .fatal
      | some underlying_type =>
        let id := attr_or_empty nd "id"
        if id = "" || (get_type_decl m id).isSome then .fatal
        else
          let const_cv := attr_or_empty nd "const" = "yes"
          let volatile_cv := attr_or_empty nd "volatile" = "yes"
          let loc := (read_location_of_node nd).2
          let decl := TypeNode.qualified_type_def underlying_type const_cv volatile_cv loc
          .ok decl (push_and_key_type_decl m decl id).2
    else .nil m

/-- `build_pointer_type_def` (abg-reader.cc:1485): the pointee must
already be registered (`assert(pointed_to_type)`); the id must be
non-empty and fresh. -/
def build_pointer_type_def (m : ReadMaps) (node : XmlNode)
    (update_depth_info add_to_current_scope : Bool) : BuildRes TypeNode :=
  match node with
  | .text _ => .nil m
  | .elem tag attrs _ =>
    let nd := XmlNode.elem tag attrs []
    if tag = "pointer-type-def" then
      let type_id := attr_or_empty nd "type-id"
      match get_type_decl m type_id with
      | none => .fatal
      | some pointed_to_type =>
        let size_in_bits :=
          match xml_node_get_attribute nd "size-in-bits" with
          | some s => atoi s
          | none => 0
        let alignment_in_bits :=
          match xml_node_get_attribute nd "alignment-in-bits" with
          | some s => atoi s
          | none => 0
        let id := attr_or_empty nd "id"
        if id = "" || (get_type_decl m id).isSome then .fatal
        else
          let loc := (read_location_of_node nd).2
          let t := TypeNode.pointer_type_def pointed_to_type size_in_bits alignment_in_bits loc
          .ok t (push_and_key_type_decl m t id).2
    else .nil m

/-- `build_reference_type_def` (abg-reader.cc:1538): as for pointers,
plus the lvalue/rvalue `kind` attribute. -/
def build_reference_type_def (m : ReadMaps) (node : XmlNode)
    (update_depth_info add_to_current_scope : Bool) : BuildRes TypeNode :=
  match node with
  | .text _ => .nil m
  | .elem tag attrs _ =>
    let nd := XmlNode.elem tag attrs []
    if tag = "reference-type-def" then
      let is_lvalue := attr_or_empty nd "kind" = "lvalue"
      let type_id := attr_or_empty nd "type-id"
      match get_type_decl m type_id with
      | none => .fatal
      | some pointed_to_type =>
        let size_in_bits :=
          match xml_node_get_attribute nd "size-in-bits" with
          | some s => atoi s
          | none => 0
        let alignment_in_bits :=
          match xml_node_get_attribute nd "alignment-in-bits" with
          | some s => atoi s
          | none => 0
        let id := attr_or_empty nd "id"
        if id = "" || (get_type_decl m id).isSome then .fatal
        else
          let loc := (read_location_of_node nd).2
          let t := TypeNode.reference_type_def pointed_to_type is_lvalue
            size_in_bits alignment_in_bits loc
          .ok t (push_and_key_type_decl m t id).2
    else .nil m

/-- `build_enum_type_decl` (abg-reader.cc:1594): the id must be non-empty
and fresh; enumerators are collected by `enum_kids` in document order;
the underlying type must resolve. -/
def build_enum_type_decl (m : ReadMaps) (node : XmlNode)
    (update_depth_info add_to_current_scope : Bool) : BuildRes TypeNode :=
  match node with
  | .text _ => .nil m
  | .elem tag attrs kids =>
    let nd := XmlNode.elem tag attrs []
    if tag = "enum-decl" then
      let name := unescape_xml_string (attr_or_empty nd "name")
      let loc := (read_location_of_node nd).2
      let id := attr_or_empty nd "id"
      if id = "" || (get_type_decl m id).isSome then .fatal
      else
        let (base_type_id, enums) := enum_kids kids "" []
        match get_type_decl m base_type_id with
        | none => .fatal
        | some underlying_type =>
          let t := TypeNode.enum_type_decl name loc underlying_type enums
          .ok t (push_and_key_type_decl m t id).2
    else .nil m

/-- `build_typedef_decl` (abg-reader.cc:1669): the underlying type must
resolve (`assert(underlying_type)`); the id must be non-empty and
fresh. -/
def build_typedef_decl (m : ReadMaps) (node : XmlNode)
    (update_depth_info add_to_current_scope : Bool) : BuildRes TypeNode :=
  match node with
  | .text _ => .nil m
  | .elem tag attrs _ =>
    let nd := XmlNode.elem tag attrs []
    if tag = "typedef-decl" then
      let name := unescape_xml_string (attr_or_empty nd "name")
      let type_id := attr_or_empty nd "type-id"
      match get_type_decl m type_id with
      | none => .fatal
      | some underlying_type =>
        let id := attr_or_empty nd "id"
        if id = "" || (get_type_decl m id).isSome then .fatal
        else
          let loc := (read_location_of_node nd).2
          let t := TypeNode.typedef_decl name underlying_type loc
          .ok t (push_and_key_type_decl m t id).2
    else .nil m

/-- `build_type_tparameter` (abg-reader.cc:2113): a non-empty id must be
fresh; a non-empty `type-id` must resolve to a type parameter
(`abort()` otherwise); the parameter is keyed only when its id is
non-empty. -/
def build_type_tparameter (m : ReadMaps) (node : XmlNode) (index : Nat)
    (update_depth_info : Bool) : BuildRes TypeNode :=
  match node with
  | .text _ => .nil m
  | .elem tag attrs _ =>
    let nd := XmlNode.elem tag attrs []
    if tag = "template-type-parameter" then
      let id := attr_or_empty nd "id"
      if id ≠ "" && (get_type_decl m id).isSome then .fatal
      else
        let type_id := attr_or_empty nd "type-id"
        let cast_ok : Bool :=
          if type_id = "" then true
          else
            match get_type_decl m type_id with
            | some (.type_tparameter _ _ _) => true
            | _ => false
        if !cast_ok then .fatal
        else
          let name := unescape_xml_string (attr_or_empty nd "name")
          let loc := (read_location_of_node nd).2
          let result := TypeNode.type_tparameter index name loc
          if id = "" then .ok result m
          else .ok result (push_and_key_type_decl m result id).2
    else .nil m

/-- Child loop of `build_type_composition` (abg-reader.cc:2185). -/
def type_composition_kids (m : ReadMaps) (l : List XmlNode) : LoopRes (Option TypeNode) :=
  match l with
  | [] => .ok none m
  | n :: rest =>
    match n with
    | .text _ => type_composition_kids m rest
    | .elem ntag nattrs nkids =>
      match build_pointer_type_def m (XmlNode.elem ntag nattrs nkids) true true with
      | .fatal => .fatal
      | .ok t m1 => .ok (some t) m1
      | .nil m1 =>
        match build_reference_type_def m1 (XmlNode.elem ntag nattrs nkids) true true with
        | .fatal => .fatal
        | .ok t m2 => .ok (some t) m2
        | .nil m2 =>
          match build_qualified_type_decl m2 (XmlNode.elem ntag nattrs nkids) true true with
          | .fatal => .fatal
          | .ok t m3 => .ok (some t) m3
          | .nil m3 => type_composition_kids m3 rest

/-- `build_type_composition` (abg-reader.cc:2171): the composed type is
the first child that builds as a pointer, reference or qualified type;
the loop stops at that child. -/
def build_type_composition (m : ReadMaps) (node : XmlNode) (index : Nat)
    (update_depth_info : Bool) : BuildRes TypeNode :=
  match node with
  | .text _ => .nil m
  | .elem tag _ kids =>
    if tag = "template-parameter-type-composition" then
      match type_composition_kids m kids with
      | .fatal => .fatal
      | .ok composed m1 => .ok (TypeNode.type_composition index composed) m1
    else .nil m

/-- `build_non_type_tparameter` (abg-reader.cc:2224): the `type-id` must
be non-empty and resolve (`abort()` otherwise). -/
def build_non_type_tparameter (m : ReadMaps) (node : XmlNode) (index : Nat)
    (update_depth_info : Bool) : BuildRes TypeNode :=
  match node with
  | .text _ => .nil m
  | .elem tag attrs _ =>
    let nd := XmlNode.elem tag attrs []
    if tag = "template-non-type-parameter" then
      let type_id := attr_or_empty nd "type-id"
      if type_id = "" then .fatal
      else
        match get_type_decl m type_id with
        | none => .fatal
        | some type =>
          let name := unescape_xml_string (attr_or_empty nd "name")
          let loc := (read_location_of_node nd).2
          .ok (TypeNode.non_type_tparameter index name type loc) m
    else .nil m

mutual

/-- `build_template_tparameter` (abg-reader.cc:2269): the id must be
non-empty and fresh; a non-empty `type-id` must resolve to a
template-template parameter; nested parameters are collected and the
result keyed.  The source's child loop tests `node->type` instead of
`n->type` (line 2311), so non-element children are not skipped there;
they are ignored anyway because they match no parameter tag. -/
def build_template_tparameter (m : ReadMaps) (node : XmlNode) (index : Nat)
    (update_depth_info : Bool) : BuildRes TypeNode :=
  match node with
  | .text _ => .nil m
  | .elem tag attrs kids =>
    let nd := XmlNode.elem tag attrs []
    if tag = "template-template-parameter" then
      let id := attr_or_empty nd "id"
      if id = "" || (get_type_decl m id).isSome then .fatal
      else
        let type_id := attr_or_empty nd "type-id"
        let cast_ok : Bool :=
          if type_id = "" then true
          else
            match get_type_decl m type_id with
            | some (.template_tparameter _ _ _ _) => true
            | _ => false
        if !cast_ok then .fatal
        else
          let name := unescape_xml_string (attr_or_empty nd "name")
          let loc := (read_location_of_node nd).2
          match tmpl_tparameter_kids m kids 0 [] with
          | .fatal => .fatal
          | .ok parms m1 =>
            let result := TypeNode.template_tparameter index name loc parms
            .ok result (key_type_decl m1 result id).2
    else .nil m

/-- Child loop of `build_template_tparameter` (abg-reader.cc:2309). -/
def tmpl_tparameter_kids (m : ReadMaps) (l : List XmlNode) (parm_index : Nat)
    (parms : List TypeNode) : LoopRes (List TypeNode) :=
  match l with
  | [] => .ok parms m
  | n :: rest =>
    match build_template_parameter m n parm_index true with
    | .fatal => .fatal
    | .ok p m1 => tmpl_tparameter_kids m1 rest (parm_index + 1) (parms ++ [p])
    | .nil m1 => tmpl_tparameter_kids m1 rest parm_index parms

/-- `build_template_parameter` (abg-reader.cc:2342): short-circuit
alternation over the four template-parameter builders. -/
def build_template_parameter (m : ReadMaps) (node : XmlNode) (index : Nat)
    (update_depth_info : Bool) : BuildRes TypeNode :=
  match build_type_tparameter m node index update_depth_info with
  | .fatal => .fatal
  | .ok r m1 => .ok r m1
  | .nil m1 =>
    match build_non_type_tparameter m1 node index update_depth_info with
    | .fatal => .fatal
    | .ok r m2 => .ok r m2
    | .nil m2 =>
      match build_template_tparameter m2 node index update_depth_info with
      | .fatal => .fatal
      | .ok r m3 => .ok r m3
      | .nil m3 => build_type_composition m3 node index update_depth_info

end

/-- Child loop of `build_function_tdecl` (abg-reader.cc:2006). -/
def fn_tdecl_kids (m : ReadMaps) (l : List XmlNode) (parm_index : Nat)
    (parms : List TypeNode) (pattern : Option FnDeclNode) :
    LoopRes (List TypeNode × Option FnDeclNode) :=
  match l with
  | [] => .ok (parms, pattern) m
  | n :: rest =>
    match n with
    | .text _ => fn_tdecl_kids m rest parm_index parms pattern
    | .elem ntag nattrs nkids =>
      match build_template_parameter m (XmlNode.elem ntag nattrs nkids) parm_index true with
      | .fatal => .fatal
      | .ok parm m1 => fn_tdecl_kids m1 rest (parm_index + 1) (parms ++ [parm]) pattern
      | .nil m1 =>
        match build_function_decl m1 (XmlNode.elem ntag nattrs nkids) none true true with
        | .fatal => .fatal
        | .ok f m2 => fn_tdecl_kids m2 rest parm_index parms (some f)
        | .nil m2 => fn_tdecl_kids m2 rest parm_index parms pattern

/-- `build_function_tdecl` (abg-reader.cc:1973): an empty id or one
already keyed makes the builder return null; children are template
parameters (indexed by position among parameter kinds) or the pattern
function; the template is keyed at the end. -/
def build_function_tdecl (m : ReadMaps) (node : XmlNode)
    (update_depth_info add_to_current_scope : Bool) : BuildRes FnTmplNode :=
  match node with
  | .text _ => .nil m
  | .elem tag attrs kids =>
    let nd := XmlNode.elem tag attrs []
    if tag = "function-template-decl" then
      let id := attr_or_empty nd "id"
      if id = "" || (get_fn_tmpl_decl m id).isSome then .nil m
      else
        let loc := (read_location_of_node nd).2
        let vis := (read_visibility nd .VISIBILITY_NONE).2
        let bind := (read_binding nd .BINDING_NONE).2
        match fn_tdecl_kids m kids 0 [] none with
        | .fatal => .fatal
        | .ok (parms, pattern) m1 =>
          let f := FnTmplNode.mk loc vis bind parms pattern
          .ok f (key_fn_tmpl_decl m1 f id).2
    else .nil m

/-- Children of a `data-member` wrapper (abg-reader.cc:1859): each
element child that builds as a `var-decl` is recorded as a data member
with the wrapper's access/layout/static attributes. -/
def data_member_kids (m : ReadMaps) (l : List XmlNode) (access : AccessSpecifier)
    (is_laid_out is_static : Bool) (offset_in_bits : Int) (acc : List DataMember) :
    LoopRes (List DataMember) :=
  match l with
  | [] => .ok acc m
  | p :: rest =>
    match p with
    | .text _ => data_member_kids m rest access is_laid_out is_static offset_in_bits acc
    | .elem ptag pattrs pkids =>
      match build_var_decl m (XmlNode.elem ptag pattrs pkids) true false with
      | .fatal => .fatal
      | .ok v m1 =>
        data_member_kids m1 rest access is_laid_out is_static offset_in_bits
          (acc ++ [DataMember.mk v access is_laid_out is_static offset_in_bits])
      | .nil m1 => data_member_kids m1 rest access is_laid_out is_static offset_in_bits acc

/-- Children of a `member-function` wrapper (abg-reader.cc:1887): each
element child that builds as a `function-decl` (as a method of the
enclosing class) is recorded with the wrapper's attributes. -/
def member_fn_kids (m : ReadMaps) (cname : String) (l : List XmlNode)
    (access : AccessSpecifier) (vtable_offset : Int)
    (is_static is_ctor is_dtor is_const : Bool) (acc : List MemberFn) :
    LoopRes (List MemberFn) :=
  match l with
  | [] => .ok acc m
  | p :: rest =>
    match p with
    | .text _ =>
      member_fn_kids m cname rest access vtable_offset is_static is_ctor is_dtor is_const acc
    | .elem ptag pattrs pkids =>
      match build_function_decl m (XmlNode.elem ptag pattrs pkids) (some cname) true false with
      | .fatal => .fatal
      | .ok f m1 =>
        member_fn_kids m1 cname rest access vtable_offset is_static is_ctor is_dtor is_const
          (acc ++ [MemberFn.mk f access vtable_offset is_static is_ctor is_dtor is_const])
      | .nil m1 =>
        member_fn_kids m1 cname rest access vtable_offset is_static is_ctor is_dtor is_const acc

mutual

/-- The id re-use check at the top of `build_class_decl`
(abg-reader.cc:1742): a non-empty id that is already keyed must denote a
declaration-only class (the assert at 1748 aborts otherwise). -/
def class_first_time_ok (m : ReadMaps) (nd : XmlNode) : Bool :=
  let id := attr_or_empty nd "id"
  if id = "" then true
  else
    match get_type_decl m id with
    | some t => t.is_class && t.class_is_declaration_only
    | none => true

/-- The `def-of-decl-id` resolution of `build_class_decl`
(abg-reader.cc:1775): the earlier declaration, provided the attribute is
present and resolves to a declaration-only class. -/
def class_earlier_of (m : ReadMaps) (nd : XmlNode) : Option TypeNode :=
  let def_id := attr_or_empty nd "def-of-decl-id"
  if def_id = "" then none
  else
    match get_type_decl m def_id with
    | some d => if d.is_class && d.class_is_declaration_only then some d else none
    | none => none

/-- `build_class_decl` (abg-reader.cc:1718).  Control flow of the source:
an id already keyed must denote a declaration-only class (assert at
1748); a non-declaration-only class is constructed with empty member
lists; a `def-of-decl-id` resolving to a declaration-only class makes
this class a definition and stores the earlier declaration — on a
declaration-only class that call dereferences the still-null `decl`
(and the assert at 1786 would fail), hence `fatal`; a declaration-only
class is then constructed as a stub and the children loop is skipped
(`!is_decl_only && n`); finally the class is keyed with
`key_type_decl` (not `key_replacement_of_type_decl`), which keeps any
existing entry for the id. -/
def build_class_decl (m : ReadMaps) (node : XmlNode)
    (update_depth_info add_to_current_scope : Bool) : BuildRes TypeNode :=
  match node with
  | .text _ => .nil m
  | .elem tag attrs kids =>
    let nd := XmlNode.elem tag attrs []
    if tag = "class-decl" then
      let name := unescape_xml_string (attr_or_empty nd "name")
      let (_, size_in_bits, alignment_in_bits) := read_size_and_alignment nd 0 0
      let vis := (read_visibility nd .VISIBILITY_NONE).2
      let id := attr_or_empty nd "id"
      if !class_first_time_ok m nd then .fatal
      else
        let loc := (read_location_of_node nd).2
        let is_decl_only := (read_is_declaration_only nd false).2
        let earlier : Option TypeNode := class_earlier_of m nd
        if earlier.isSome && is_decl_only then .fatal
        else if is_decl_only then
          -- Modelled from the spec: the single-argument class_decl(name)
          -- constructor of abg-ir (not under src/) creates a
          -- declaration-only stub carrying only its name, with no
          -- members and no base classes.
          let decl := TypeNode.class_decl name 0 0 .no_loc .VISIBILITY_DEFAULT true none
            [] [] [] [] []
          .ok decl (key_type_decl m decl id).2
        else
          match class_kids m name kids ⟨[], [], [], [], []⟩ with
          | .fatal => .fatal
          | .ok acc m1 =>
            let decl := TypeNode.class_decl name size_in_bits alignment_in_bits loc vis
              false earlier acc.bases acc.data_members acc.member_fns
              acc.member_fn_tmpls acc.member_class_tmpls
            .ok decl (key_type_decl m1 decl id).2
    else .nil m

/-- Child loop of `build_class_decl` (abg-reader.cc:1794), run only for
non-declaration-only classes: `base-class` children must resolve to a
registered class (`assert(b)`); `member-type`, `data-member`,
`member-function` and `member-template` wrappers delegate to the nested
builders; unknown children are ignored. -/
def class_kids (m : ReadMaps) (cname : String) (l : List XmlNode) (acc : ClassAcc) :
    LoopRes ClassAcc :=
  match l with
  | [] => .ok acc m
  | n :: rest =>
    match n with
    | .text _ => class_kids m cname rest acc
    | .elem ntag nattrs nkids =>
      let nd := XmlNode.elem ntag nattrs []
      if ntag = "base-class" then
        let access := (read_access nd .private_access).2
        let type_id := attr_or_empty nd "type-id"
        match get_type_decl m type_id with
        | some b =>
          if b.is_class then
            let (offset_present, offset_in_bits) := read_offset_in_bits nd 0
            let is_virtual := (read_is_virtual nd false).2
            let base := BaseSpec.mk b access
              (if offset_present then offset_in_bits else -1) is_virtual
            class_kids m cname rest { acc with bases := acc.bases ++ [base] }
          else .fatal
        | none => .fatal
      else if ntag = "member-type" then
        match member_type_kids m nkids with
        | .fatal => .fatal
        | .ok _ m1 => class_kids m1 cname rest acc
      else if ntag = "data-member" then
        let access := (read_access nd .private_access).2
        let (is_laid_out, offset_in_bits) := read_offset_in_bits nd 0
        let is_static := (read_static nd false).2
        match data_member_kids m nkids access is_laid_out is_static offset_in_bits
            acc.data_members with
        | .fatal => .fatal
        | .ok dms m1 => class_kids m1 cname rest { acc with data_members := dms }
      else if ntag = "member-function" then
        let access := (read_access nd .private_access).2
        let vtable_offset :=
          match xml_node_get_attribute nd "vtable-offset" with
          | some s => atoi s
          | none => 0
        let is_static := (read_static nd false).2
        let (_, is_ctor, is_dtor, is_const) := read_cdtor_const nd false false false
        match member_fn_kids m cname nkids access vtable_offset is_static
            is_ctor is_dtor is_const acc.member_fns with
        | .fatal => .fatal
        | .ok mfs m1 => class_kids m1 cname rest { acc with member_fns := mfs }
      else if ntag = "member-template" then
        let access := (read_access nd .private_access).2
        let is_static := (read_static nd false).2
        let (_, is_ctor, _, is_const) := read_cdtor_const nd false false false
        match member_tmpl_kids m nkids access is_static is_ctor is_const
            (acc.member_fn_tmpls, acc.member_class_tmpls) with
        | .fatal => .fatal
        | .ok (fts, cts) m1 =>
          class_kids m1 cname rest
            { acc with member_fn_tmpls := fts, member_class_tmpls := cts }
      else class_kids m cname rest acc

/-- Children of a `member-type` wrapper (abg-reader.cc:1830): each
element child is handed to `build_type` (which registers the type); the
result is otherwise discarded. -/
def member_type_kids (m : ReadMaps) (l : List XmlNode) : LoopRes Unit :=
  match l with
  | [] => .ok () m
  | p :: rest =>
    match p with
    | .text _ => member_type_kids m rest
    | .elem ptag pattrs pkids =>
      -- The source calls build_type here.  Its short-circuit alternation
      -- is inlined (build_type, defined right after this block from the
      -- same alternation, cannot be named before it exists; the inlining
      -- also keeps this mutual recursion structural).  The result is
      -- discarded either way.
      match build_type_decl m (XmlNode.elem ptag pattrs pkids) true true with
      | .fatal => .fatal
      | .ok _ m1 => member_type_kids m1 rest
      | .nil m1 =>
        match build_qualified_type_decl m1 (XmlNode.elem ptag pattrs pkids) true true with
        | .fatal => .fatal
        | .ok _ m2 => member_type_kids m2 rest
        | .nil m2 =>
          match build_pointer_type_def m2 (XmlNode.elem ptag pattrs pkids) true true with
          | .fatal => .fatal
          | .ok _ m3 => member_type_kids m3 rest
          | .nil m3 =>
            match build_reference_type_def m3 (XmlNode.elem ptag pattrs pkids) true true with
            | .fatal => .fatal
            | .ok _ m4 => member_type_kids m4 rest
            | .nil m4 =>
              match build_enum_type_decl m4 (XmlNode.elem ptag pattrs pkids) true true with
              | .fatal => .fatal
              | .ok _ m5 => member_type_kids m5 rest
              | .nil m5 =>
                match build_typedef_decl m5 (XmlNode.elem ptag pattrs pkids) true true with
                | .fatal => .fatal
                | .ok _ m6 => member_type_kids m6 rest
                | .nil m6 =>
                  match build_class_decl m6 (XmlNode.elem ptag pattrs pkids) true true with
                  | .fatal => .fatal
                  | .ok _ m7 => member_type_kids m7 rest
                  | .nil m7 => member_type_kids m7 rest

/-- Children of a `member-template` wrapper (abg-reader.cc:1914): a child
building as a `function-template-decl` is recorded as a member function
template (with the ctor/const flags), otherwise one building as a
`class-template-decl` is recorded as a member class template. -/
def member_tmpl_kids (m : ReadMaps) (l : List XmlNode) (access : AccessSpecifier)
    (is_static is_ctor is_const : Bool) (acc : List MemberFnTmpl × List MemberClassTmpl) :
    LoopRes (List MemberFnTmpl × List MemberClassTmpl) :=
  match l with
  | [] => .ok acc m
  | p :: rest =>
    match p with
    | .text _ => member_tmpl_kids m rest access is_static is_ctor is_const acc
    | .elem ptag pattrs pkids =>
      match build_function_tdecl m (XmlNode.elem ptag pattrs pkids) true false with
      | .fatal => .fatal
      | .ok f m1 =>
        member_tmpl_kids m1 rest access is_static is_ctor is_const
          (acc.1 ++ [MemberFnTmpl.mk f access is_static is_ctor is_const], acc.2)
      | .nil m1 =>
        match build_class_tdecl m1 (XmlNode.elem ptag pattrs pkids) true false with
        | .fatal => .fatal
        | .ok c m2 =>
          member_tmpl_kids m2 rest access is_static is_ctor is_const
            (acc.1, acc.2 ++ [MemberClassTmpl.mk c access is_static])
        | .nil m2 => member_tmpl_kids m2 rest access is_static is_ctor is_const acc

/-- `build_class_tdecl` (abg-reader.cc:2050): as for function templates,
with a class pattern. -/
def build_class_tdecl (m : ReadMaps) (node : XmlNode)
    (update_depth_info add_to_current_scope : Bool) : BuildRes ClassTmplNode :=
  match node with
  | .text _ => .nil m
  | .elem tag attrs kids =>
    let nd := XmlNode.elem tag attrs []
    if tag = "class-template-decl" then
      let id := attr_or_empty nd "id"
      if id = "" || (get_class_tmpl_decl m id).isSome then .nil m
      else
        let loc := (read_location_of_node nd).2
        let vis := (read_visibility nd .VISIBILITY_NONE).2
        match class_tdecl_kids m kids add_to_current_scope 0 [] none with
        | .fatal => .fatal
        | .ok (parms, pattern) m1 =>
          let c := ClassTmplNode.mk loc vis parms pattern
          .ok c (key_class_tmpl_decl m1 c id).2
    else .nil m

/-- Child loop of `build_class_tdecl` (abg-reader.cc:2077); the pattern
class is built with the enclosing call's `add_to_current_scope`. -/
def class_tdecl_kids (m : ReadMaps) (l : List XmlNode) (add_to_current_scope : Bool)
    (parm_index : Nat) (parms : List TypeNode) (pattern : Option TypeNode) :
    LoopRes (List TypeNode × Option TypeNode) :=
  match l with
  | [] => .ok (parms, pattern) m
  | n :: rest =>
    match n with
    | .text _ => class_tdecl_kids m rest add_to_current_scope parm_index parms pattern
    | .elem ntag nattrs nkids =>
      match build_template_parameter m (XmlNode.elem ntag nattrs nkids) parm_index true with
      | .fatal => .fatal
      | .ok parm m1 =>
        class_tdecl_kids m1 rest add_to_current_scope (parm_index + 1) (parms ++ [parm]) pattern
      | .nil m1 =>
        match build_class_decl m1 (XmlNode.elem ntag nattrs nkids) true add_to_current_scope with
        | .fatal => .fatal
        | .ok c m2 => class_tdecl_kids m2 rest add_to_current_scope parm_index parms (some c)
        | .nil m2 => class_tdecl_kids m2 rest add_to_current_scope parm_index parms pattern

end

/-- `build_type` (abg-reader.cc:2365): short-circuit alternation over
the type builders. -/
def build_type (m : ReadMaps) (node : XmlNode)
    (update_depth_info add_to_current_scope : Bool) : BuildRes TypeNode :=
  match build_type_decl m node update_depth_info add_to_current_scope with
  | .fatal => .fatal
  | .ok t m1 => .ok t m1
  | .nil m1 =>
    match build_qualified_type_decl m1 node update_depth_info add_to_current_scope with
    | .fatal => .fatal
    | .ok t m2 => .ok t m2
    | .nil m2 =>
      match build_pointer_type_def m2 node update_depth_info add_to_current_scope with
      | .fatal => .fatal
      | .ok t m3 => .ok t m3
      | .nil m3 =>
        match build_reference_type_def m3 node update_depth_info add_to_current_scope with
        | .fatal => .fatal
        | .ok t m4 => .ok t m4
        | .nil m4 =>
          match build_enum_type_decl m4 node update_depth_info add_to_current_scope with
          | .fatal => .fatal
          | .ok t m5 => .ok t m5
          | .nil m5 =>
            match build_typedef_decl m5 node update_depth_info add_to_current_scope with
            | .fatal => .fatal
            | .ok t m6 => .ok t m6
            | .nil m6 => build_class_decl m6 node update_depth_info add_to_current_scope

/-- The node produced by a builder, if any. -/
def BuildRes.val? {α : Type} : BuildRes α → Option α
  | .ok v _ => some v
  | .nil _ => none
  | .fatal => none

/-! ## Archive driver (read_corpus_from_archive) -/

/-- A translation unit as the archive driver observes it (its content
beyond the path plays no role at the archive level). -/
structure TransUnit where
  path : String
deriving DecidableEq, Repr

/-- The entry loop of `read_corpus_from_archive` (abg-reader.cc:2910):
one iteration per archive entry, in entry order.  Each entry is modelled
by the outcome of `read_to_translation_unit` on it (an external
unzip-and-parse step): `some tu` for a well-formed entry, `none` for a
malformed one.  A successful entry is added to the corpus and counted;
a failed one is skipped and the loop continues. -/
def archive_loop : List (Option TransUnit) → List TransUnit → Nat → Nat × List TransUnit
  | [], corp, nb_of_tu_read => (nb_of_tu_read, corp)
  | some tu :: rest, corp, nb_of_tu_read => archive_loop rest (corp ++ [tu]) (nb_of_tu_read + 1)
  | none :: rest, corp, nb_of_tu_read => archive_loop rest corp nb_of_tu_read

/-- `read_corpus_from_archive` (abg-reader.cc:2896) on a valid archive
handle (the `!ar` and negative-entry-count guards concern the external
zip collaborator): runs the entry loop and returns the number of
translation units read together with the corpus contents. -/
def read_corpus_from_archive (entries : List (Option TransUnit)) (corp : List TransUnit) :
    Nat × List TransUnit :=
  archive_loop entries corp 0

/-! ## Claim theorems -/

/-- C10: for every element carrying a visibility, binding, or access
attribute, the corresponding attribute reader returns true exactly when
the attribute is present, and an unrecognized attribute value is
silently mapped to a fixed default — default visibility, global
binding, private access respectively — rather than reported as an
error. -/
theorem C10_thm (node : XmlNode) (vis : Visibility) (bind : Binding)
    (access : AccessSpecifier) :
    ((read_visibility node vis).1 = (xml_node_get_attribute node "visibility").isSome
      ∧ (read_binding node bind).1 = (xml_node_get_attribute node "binding").isSome
      ∧ (read_access node access).1 = (xml_node_get_attribute node "access").isSome)
    ∧ (∀ s, xml_node_get_attribute node "visibility" = some s →
        s ≠ "default" → s ≠ "hidden" → s ≠ "internal" → s ≠ "protected" →
        (read_visibility node vis).2 = .VISIBILITY_DEFAULT)
    ∧ (∀ s, xml_node_get_attribute node "binding" = some s →
        s ≠ "global" → s ≠ "local" → s ≠ "weak" →
        (read_binding node bind).2 = .BINDING_GLOBAL)
    ∧ (∀ s, xml_node_get_attribute node "access" = some s →
        s ≠ "private" → s ≠ "protected" → s ≠ "public" →
        (read_access node access).2 = .private_access) := by
  refine ⟨⟨?_, ?_, ?_⟩, ?_, ?_, ?_⟩
  · cases h : xml_node_get_attribute node "visibility" <;>
      simp [read_visibility, h] <;> split_ifs <;> rfl
  · cases h : xml_node_get_attribute node "binding" <;>
      simp [read_binding, h] <;> split_ifs <;> rfl
  · cases h : xml_node_get_attribute node "access" <;>
      simp [read_access, h] <;> split_ifs <;> rfl
  · intro s h h1 h2 h3 h4
    simp [read_visibility, h, h1, h2, h3, h4]
  · intro s h h1 h2 h3
    simp [read_binding, h, h1, h2, h3]
  · intro s h h1 h2 h3
    simp [read_access, h, h1, h2, h3]

/-- A concrete element carrying unrecognized visibility, binding and
access values. -/
def C10_node : XmlNode :=
  .elem "var-decl" [("visibility", "bogus"), ("binding", "bogus"), ("access", "bogus")] []

/-- Witness for C10 at a concrete element: all three attributes are
present with unrecognized values; each reader returns true and maps the
value to its fixed default. -/
theorem C10_witness :
    (read_visibility C10_node .VISIBILITY_NONE).2 = .VISIBILITY_DEFAULT
    ∧ (read_binding C10_node .BINDING_NONE).2 = .BINDING_GLOBAL
    ∧ (read_access C10_node .public_access).2 = .private_access :=
  ⟨(C10_thm C10_node .VISIBILITY_NONE .BINDING_NONE .public_access).2.1 "bogus"
      rfl (by decide) (by decide) (by decide) (by decide),
   (C10_thm C10_node .VISIBILITY_NONE .BINDING_NONE .public_access).2.2.1 "bogus"
      rfl (by decide) (by decide) (by decide),
   (C10_thm C10_node .VISIBILITY_NONE .BINDING_NONE .public_access).2.2.2 "bogus"
      rfl (by decide) (by decide) (by decide)⟩

/-- A member-function element carrying both the constructor and the
const attributes, each set to yes. -/
def C6_node : XmlNode :=
  .elem "member-function" [("constructor", "yes"), ("const", "yes")] []

/-- A class containing one member-function wrapper with both
constructor and const set, wrapping one function-decl. -/
def C6_class_node : XmlNode :=
  .elem "class-decl" [("name", "C"), ("id", "c1")]
    [ .elem "member-function" [("constructor", "yes"), ("const", "yes")]
        [ .elem "function-decl" [("name", "f")] [] ] ]

/-- C6: the claim says the constructor, destructor and const flags are
read independently, each present attribute being recorded from its own
value.  The code instead returns from `read_cdtor_const` as soon as the
first of the three attributes is found: on an element with
constructor=yes and const=yes, the const attribute is present with
value yes, yet the returned is_const flag keeps its initialized value
false — and the member function recorded by `build_class_decl` for such
a wrapper is marked constructor but not const.  This contradicts the
function's own documentation, which states each out-parameter is set
whenever its attribute is present and the function returns true. -/
theorem C6_thm :
    read_cdtor_const C6_node false false false = (true, true, false, false)
    ∧ xml_node_get_attribute C6_node "const" = some "yes"
    ∧ ((build_class_decl empty_maps C6_class_node true true).val?.map
        (fun c => c.class_member_fns.map
          (fun mf => (mf.is_constructor, mf.is_const)))) = some [(true, false)] :=
  ⟨rfl, rfl, rfl⟩

/-- C4: for each of the three registries, keying an id that is already
mapped returns false and leaves the whole table state unchanged (no
exception mechanism exists in the model: every outcome is a returned
value); keying a fresh id returns true and inserts exactly that
mapping, leaving every other id and the other two tables unchanged. -/
theorem C4_thm (m : ReadMaps) (t : TypeNode) (f : FnTmplNode) (c : ClassTmplNode)
    (id : String) :
    ((get_type_decl m id).isSome → key_type_decl m t id = (false, m))
    ∧ (get_type_decl m id = none →
        (key_type_decl m t id).1 = true
        ∧ get_type_decl (key_type_decl m t id).2 id = some t
        ∧ (∀ id2, id2 ≠ id →
            get_type_decl (key_type_decl m t id).2 id2 = get_type_decl m id2)
        ∧ (key_type_decl m t id).2.fn_tmpl_map = m.fn_tmpl_map
        ∧ (key_type_decl m t id).2.class_tmpl_map = m.class_tmpl_map)
    ∧ ((get_fn_tmpl_decl m id).isSome → key_fn_tmpl_decl m f id = (false, m))
    ∧ (get_fn_tmpl_decl m id = none →
        (key_fn_tmpl_decl m f id).1 = true
        ∧ get_fn_tmpl_decl (key_fn_tmpl_decl m f id).2 id = some f
        ∧ (∀ id2, id2 ≠ id →
            get_fn_tmpl_decl (key_fn_tmpl_decl m f id).2 id2 = get_fn_tmpl_decl m id2)
        ∧ (key_fn_tmpl_decl m f id).2.types_map = m.types_map
        ∧ (key_fn_tmpl_decl m f id).2.class_tmpl_map = m.class_tmpl_map)
    ∧ ((get_class_tmpl_decl m id).isSome → key_class_tmpl_decl m c id = (false, m))
    ∧ (get_class_tmpl_decl m id = none →
        (key_class_tmpl_decl m c id).1 = true
        ∧ get_class_tmpl_decl (key_class_tmpl_decl m c id).2 id = some c
        ∧ (∀ id2, id2 ≠ id →
            get_class_tmpl_decl (key_class_tmpl_decl m c id).2 id2
              = get_class_tmpl_decl m id2)
        ∧ (key_class_tmpl_decl m c id).2.types_map = m.types_map
        ∧ (key_class_tmpl_decl m c id).2.fn_tmpl_map = m.fn_tmpl_map) := by
  refine ⟨?_, ?_, ?_, ?_, ?_, ?_⟩
  · intro h
    cases hf : assoc_find m.types_map id with
    | none => rw [get_type_decl, hf] at h; simp at h
    | some v => simp [key_type_decl, hf]
  · intro h
    rw [get_type_decl] at h
    refine ⟨by simp [key_type_decl, h], by simp [key_type_decl, h, get_type_decl, assoc_find],
      ?_, by simp [key_type_decl, h], by simp [key_type_decl, h]⟩
    intro id2 hne
    simp [key_type_decl, h, get_type_decl, assoc_find]
    intro heq
    exact absurd heq.symm hne
  · intro h
    cases hf : assoc_find m.fn_tmpl_map id with
    | none => rw [get_fn_tmpl_decl, hf] at h; simp at h
    | some v => simp [key_fn_tmpl_decl, hf]
  · intro h
    rw [get_fn_tmpl_decl] at h
    refine ⟨by simp [key_fn_tmpl_decl, h],
      by simp [key_fn_tmpl_decl, h, get_fn_tmpl_decl, assoc_find],
      ?_, by simp [key_fn_tmpl_decl, h], by simp [key_fn_tmpl_decl, h]⟩
    intro id2 hne
    simp [key_fn_tmpl_decl, h, get_fn_tmpl_decl, assoc_find]
    intro heq
    exact absurd heq.symm hne
  · intro h
    cases hf : assoc_find m.class_tmpl_map id with
    | none => rw [get_class_tmpl_decl, hf] at h; simp at h
    | some v => simp [key_class_tmpl_decl, hf]
  · intro h
    rw [get_class_tmpl_decl] at h
    refine ⟨by simp [key_class_tmpl_decl, h],
      by simp [key_class_tmpl_decl, h, get_class_tmpl_decl, assoc_find],
      ?_, by simp [key_class_tmpl_decl, h], by simp [key_class_tmpl_decl, h]⟩
    intro id2 hne
    simp [key_class_tmpl_decl, h, get_class_tmpl_decl, assoc_find]
    intro heq
    exact absurd heq.symm hne

/-- A type, a function template and a class template used to populate
concrete registries. -/
def C4_type : TypeNode := .type_decl "int" 32 32 .no_loc

/-- See C4_type. -/
def C4_fn_tmpl : FnTmplNode := .mk .no_loc .VISIBILITY_NONE .BINDING_NONE [] none

/-- See C4_type. -/
def C4_class_tmpl : ClassTmplNode := .mk .no_loc .VISIBILITY_NONE [] none

/-- Concrete registries with one entry each under the id dup. -/
def C4_maps : ReadMaps :=
  ⟨[("dup", C4_type)], [("dup", C4_fn_tmpl)], [("dup", C4_class_tmpl)]⟩

/-- Witness for C4 at concrete registries: a duplicate register fails
without mutating, a fresh register succeeds and is observable. -/
theorem C4_witness :
    key_type_decl C4_maps C4_type "dup" = (false, C4_maps)
    ∧ (key_type_decl C4_maps C4_type "fresh").1 = true
    ∧ get_type_decl (key_type_decl C4_maps C4_type "fresh").2 "fresh" = some C4_type
    ∧ key_fn_tmpl_decl C4_maps C4_fn_tmpl "dup" = (false, C4_maps)
    ∧ key_class_tmpl_decl C4_maps C4_class_tmpl "dup" = (false, C4_maps) :=
  ⟨(C4_thm C4_maps C4_type C4_fn_tmpl C4_class_tmpl "dup").1 rfl,
   ((C4_thm C4_maps C4_type C4_fn_tmpl C4_class_tmpl "fresh").2.1 rfl).1,
   ((C4_thm C4_maps C4_type C4_fn_tmpl C4_class_tmpl "fresh").2.1 rfl).2.1,
   (C4_thm C4_maps C4_type C4_fn_tmpl C4_class_tmpl "dup").2.2.1 rfl,
   (C4_thm C4_maps C4_type C4_fn_tmpl C4_class_tmpl "dup").2.2.2.2.1 rfl⟩

/-- Registries as they stand after reading a first document that
registered the id I1 in all three tables. -/
def C2_maps : ReadMaps :=
  ⟨[("I1", C4_type)], [("I1", C4_fn_tmpl)], [("I1", C4_class_tmpl)]⟩

/-- C2 counterexample: the claim says all three identifier-resolution
tables are cleared when a new translation-unit document begins.  The
document driver only calls `clear_type_map`, which clears
`m_types_map`; after the clearing step of the second document, the
function-template and class-template entries registered while reading
the first document still resolve to the first document's nodes. -/
theorem C2_cex :
    get_fn_tmpl_decl (new_translation_unit_document_begin C2_maps) "I1" = some C4_fn_tmpl
    ∧ get_class_tmpl_decl (new_translation_unit_document_begin C2_maps) "I1"
        = some C4_class_tmpl :=
  ⟨rfl, rfl⟩

/-- C2 amended: when a new translation-unit document begins, only the
type registry is cleared, so a type ID registered while reading the
first document never resolves while reading the second; the
function-template and class-template registries are left untouched and
their entries persist across documents read through the same
context. -/
theorem C2_thm (m : ReadMaps) :
    (∀ id, get_type_decl (new_translation_unit_document_begin m) id = none)
    ∧ (new_translation_unit_document_begin m).fn_tmpl_map = m.fn_tmpl_map
    ∧ (new_translation_unit_document_begin m).class_tmpl_map = m.class_tmpl_map :=
  ⟨fun id => rfl, rfl, rfl⟩

/-- The scope stack while the reader sits inside the var-decl of the
single data-member of a class: the var is at class scope, the class and
the global scope are not. -/
def C3_stack : List StackDecl :=
  [⟨true, "var"⟩, ⟨false, "class"⟩, ⟨false, "global"⟩]

/-- C3: on a depth observation d with recorded depth d0, the stack is
unchanged when d exceeds d0; when d is at most d0, the entries popped
are exactly as many as the claimed rule computes from the XML-level
count d0 - d + 1 (one fewer whenever a popped class-scope node is met
while the remaining count exceeds 2); and the new depth is recorded.
Concretely, for a class whose single data-member wraps one var-decl
(stack C3_stack at depth 3): moving to a sibling inside the class at
depth 3 closes the two XML levels of the member (var-decl and
data-member) yet pops exactly one entry; moving past the class to depth
1 closes three XML levels but pops only two entries (the member's one
logical level plus the class itself), the correction having elided
one. -/
theorem C3_thm :
    (∀ (ctxt : DepthState) (d : Int),
      (d > ctxt.depth →
        (update_depth_info_of_read_context ctxt d).decls_stack = ctxt.decls_stack)
      ∧ (d ≤ ctxt.depth →
        (update_depth_info_of_read_context ctxt d).decls_stack =
          ctxt.decls_stack.drop
            (claimed_pop_count (ctxt.depth - d + 1).toNat ctxt.decls_stack))
      ∧ (update_depth_info_of_read_context ctxt d).depth = d)
    ∧ update_depth_info_of_read_context ⟨3, C3_stack⟩ 3
        = ⟨3, [⟨false, "class"⟩, ⟨false, "global"⟩]⟩
    ∧ update_depth_info_of_read_context ⟨3, C3_stack⟩ 1 = ⟨1, [⟨false, "global"⟩]⟩ := by
  have heval : ∀ nb s, update_depth_pop_loop nb s = List.drop (claimed_pop_count nb s) s :=
    update_depth_pop_loop_eq_drop
  refine ⟨fun ctxt d => ⟨?_, ?_, ?_⟩, ?_, ?_⟩
  · intro h
    simp [update_depth_info_of_read_context, if_pos h]
  · intro h
    have hn : ¬ d > ctxt.depth := not_lt.mpr h
    simp [update_depth_info_of_read_context, if_neg hn, heval]
  · by_cases h : d > ctxt.depth <;>
      simp [update_depth_info_of_read_context, h]
  · rw [update_depth_info_of_read_context]
    norm_num
    rw [heval]
    norm_num [claimed_pop_count, C3_stack, is_at_class_scope]
  · rw [update_depth_info_of_read_context]
    norm_num
    rw [heval, show Int.toNat 3 = 3 from rfl]
    norm_num [claimed_pop_count, C3_stack, is_at_class_scope]

/-- Witness for C3 at the concrete class/data-member stack: the
observation d = 1 with recorded depth 3 satisfies d ≤ d0, and the
resulting stack is the original minus the claimed number of entries. -/
theorem C3_witness :
    ((1 : Int) ≤ 3)
    ∧ (update_depth_info_of_read_context ⟨3, C3_stack⟩ 1).decls_stack
        = C3_stack.drop (claimed_pop_count ((3 : Int) - 1 + 1).toNat C3_stack) :=
  ⟨by decide, (C3_thm.1 ⟨3, C3_stack⟩ 1).2.1 (by decide)⟩

/-- The entry loop counts one per successful entry and appends the
parsed units in entry order. -/
theorem archive_loop_spec (entries : List (Option TransUnit)) (corp : List TransUnit)
    (nb : Nat) :
    archive_loop entries corp nb
      = (nb + entries.reduceOption.length, corp ++ entries.reduceOption) := by
  induction entries generalizing corp nb with
  | nil => simp [archive_loop, List.reduceOption]
  | cons e rest ih =>
    cases e with
    | none => simp [archive_loop, ih, List.reduceOption_cons_of_none]
    | some tu =>
      simp [archive_loop, ih, List.reduceOption_cons_of_some]
      omega

/-- C8: reading a corpus from an archive whose entries are all
well-formed yields the corpus of all parsed units in entry order and
returns their number; in general a malformed entry is skipped,
processing continues, and both the corpus and the returned count
comprise exactly the successfully parsed units — illustrated by a
3-entry archive whose second entry is malformed. -/
theorem C8_thm :
    (∀ tus : List TransUnit,
      read_corpus_from_archive (tus.map some) [] = (tus.length, tus))
    ∧ (∀ entries : List (Option TransUnit),
        read_corpus_from_archive entries []
          = (entries.reduceOption.length, entries.reduceOption))
    ∧ read_corpus_from_archive [some ⟨"tu1"⟩, none, some ⟨"tu3"⟩] []
        = (2, [⟨"tu1"⟩, ⟨"tu3"⟩]) := by
  have hmap : ∀ tus : List TransUnit, (tus.map some).reduceOption = tus := by
    intro tus
    induction tus with
    | nil => simp [List.reduceOption]
    | cons t rest ih => simp [List.reduceOption_cons_of_some, ih]
  refine ⟨?_, ?_, by decide⟩
  · intro tus
    rw [read_corpus_from_archive, archive_loop_spec]
    simp [hmap]
  · intro entries
    rw [read_corpus_from_archive, archive_loop_spec]
    simp

/-- The (name, value) pairs of the enumerator children of an element,
in document order, with a missing name read as the empty string and a
missing value as 0: this is the list the claim says the enum records. -/
def enumerator_pairs (kids : List XmlNode) : List (String × Int) :=
  kids.filterMap fun n =>
    match n with
    | .text _ => none
    | .elem tag attrs _ =>
      if tag = "enumerator" then
        some
          (match assoc_find attrs "name" with
            | some a => unescape_xml_string a
            | none => "",
           match assoc_find attrs "value" with
            | some a => atoi a
            | none => 0)
      else none

/-- The enum child loop accumulates exactly the enumerator pairs of the
children, appended to the accumulator, independent of the underlying
type accumulator. -/
theorem enum_kids_spec (kids : List XmlNode) (base : String) (enums : List (String × Int)) :
    (enum_kids kids base enums).2 = enums ++ enumerator_pairs kids := by
  induction kids generalizing base enums with
  | nil => simp [enum_kids, enumerator_pairs]
  | cons n rest ih =>
    cases n with
    | text s => simp [enum_kids, enumerator_pairs, ih]
    | elem ntag nattrs nkids =>
      by_cases h1 : ntag = "underlying-type"
      · subst h1
        cases ha : xml_node_get_attribute (XmlNode.elem "underlying-type" nattrs []) "type-id" with
        | some a => simp [enum_kids, ha, ih, enumerator_pairs]
        | none => simp [enum_kids, ha, ih, enumerator_pairs]
      · by_cases h2 : ntag = "enumerator"
        · subst h2
          simp [enum_kids, h1, ih, enumerator_pairs, List.filterMap_cons,
            xml_node_get_attribute, XmlNode.attrs]
        · simp [enum_kids, h1, h2, ih, enumerator_pairs, List.filterMap_cons]

/-- C9: whenever the enum builder succeeds on an enum-decl element, the
reconstructed enum type's enumerator list is exactly the (name, value)
pairs of the element's enumerator children, in document order, with no
re-sorting and no deduplication. -/
theorem C9_thm (m : ReadMaps) (attrs : List (String × String)) (kids : List XmlNode)
    (u a : Bool) (t : TypeNode) (m2 : ReadMaps)
    (h : build_enum_type_decl m (.elem "enum-decl" attrs kids) u a = .ok t m2) :
    t.enum_enumerators = enumerator_pairs kids := by
  rw [build_enum_type_decl] at h
  simp only [reduceIte] at h
  split at h
  · exact absurd h (by simp)
  · split at h
    · exact absurd h (by simp)
    · rename_i underlying heq
      simp only [BuildRes.ok.injEq] at h
      rw [← h.1, TypeNode.enum_enumerators]
      have := enum_kids_spec kids "" []
      rw [this]
      simp

/-- Registry holding the underlying int type for the C9 witness. -/
def C9_maps : ReadMaps := ⟨[("t-int", .type_decl "int" 32 32 .no_loc)], [], []⟩

/-- An enum-decl element with enumerators (A,0), (B,1), (C,5) in that
document order. -/
def C9_kids : List XmlNode :=
  [ .elem "underlying-type" [("type-id", "t-int")] [],
    .elem "enumerator" [("name", "A"), ("value", "0")] [],
    .elem "enumerator" [("name", "B"), ("value", "1")] [],
    .elem "enumerator" [("name", "C"), ("value", "5")] [] ]

/-- The enum node the builder produces for C9_kids. -/
def C9_enum : TypeNode :=
  .enum_type_decl "E" .no_loc (.type_decl "int" 32 32 .no_loc)
    [("A", 0), ("B", 1), ("C", 5)]

/-- Witness for C9: the builder succeeds on the concrete enum element
and the reconstructed enumerator list is exactly (A,0), (B,1), (C,5) in
document order. -/
theorem C9_witness :
    build_enum_type_decl C9_maps (.elem "enum-decl" [("name", "E"), ("id", "e1")] C9_kids)
        true true
      = .ok C9_enum ⟨[("e1", C9_enum), ("t-int", .type_decl "int" 32 32 .no_loc)], [], []⟩
    ∧ C9_enum.enum_enumerators = enumerator_pairs C9_kids
    ∧ C9_enum.enum_enumerators = [("A", 0), ("B", 1), ("C", 5)] :=
  ⟨rfl,
   C9_thm C9_maps [("name", "E"), ("id", "e1")] C9_kids true true C9_enum
     ⟨[("e1", C9_enum), ("t-int", .type_decl "int" 32 32 .no_loc)], [], []⟩ rfl,
   rfl⟩

/-- A function-decl element whose return child references the
unregistered type id undef. -/
def C5_fn_node : XmlNode :=
  .elem "function-decl" [("name", "f")] [ .elem "return" [("type-id", "undef")] [] ]

/-- The function node the builder produces for C5_fn_node: note the
null (none) return type. -/
def C5_fn : FnDeclNode :=
  .mk "f" "" false .no_loc .VISIBILITY_NONE .BINDING_NONE none 0 0 [] none

/-- C5 counterexample: the claim says a builder that dereferences an
unregistered ID fails with a reference error reported to the caller
rather than substituting a null or default node.  On a function-decl
whose return type-id is unregistered, `build_function_decl` instead
succeeds and silently stores a null return type
(`fn_type->set_return_type(ctxt.get_type_decl(type_id))` with a null
lookup result, abg-reader.cc:1311). -/
theorem C5_cex :
    build_function_decl empty_maps C5_fn_node none true true = .ok C5_fn empty_maps
    ∧ C5_fn.return_type = none :=
  ⟨rfl, rfl⟩

/-- C5 amended: a pointee or underlying-type dereference of an
unregistered ID makes the builder abort through a failed assertion —
the process terminates, nothing is reported to the caller and no null
node is substituted; the return-type dereference of a function-decl,
however, silently stores a null return type and the builder
succeeds. -/
theorem C5_thm (m : ReadMaps) (attrs : List (String × String)) (kids : List XmlNode)
    (u a : Bool) :
    (get_type_decl m (attr_or_empty (XmlNode.elem "pointer-type-def" attrs []) "type-id")
        = none →
      build_pointer_type_def m (.elem "pointer-type-def" attrs kids) u a = .fatal)
    ∧ (get_type_decl m (attr_or_empty (XmlNode.elem "typedef-decl" attrs []) "type-id")
        = none →
      build_typedef_decl m (.elem "typedef-decl" attrs kids) u a = .fatal)
    ∧ (∀ ret_id, ret_id ≠ "" → get_type_decl m ret_id = none →
        ∃ f m2,
          build_function_decl m
              (.elem "function-decl" attrs [ .elem "return" [("type-id", ret_id)] [] ])
              none u a
            = .ok f m2
          ∧ f.return_type = none) := by
  refine ⟨?_, ?_, ?_⟩
  · intro h
    rw [build_pointer_type_def]
    simp only [reduceIte]
    rw [h]
  · intro h
    rw [build_typedef_decl]
    simp only [reduceIte]
    rw [h]
  · intro ret_id hne h
    have hattr : attr_or_empty (XmlNode.elem "return" [("type-id", ret_id)] []) "type-id"
        = ret_id := by
      simp [attr_or_empty, xml_node_get_attribute, assoc_find, XmlNode.attrs]
    have hk : fn_decl_kids m [XmlNode.elem "return" [("type-id", ret_id)] []] [] none
        = .ok ([], none) m := by
      rw [fn_decl_kids]
      simp only [reduceIte, hattr]
      rw [if_neg hne, h]
      rfl
    rw [build_function_decl]
    simp only [reduceIte, hk]
    exact ⟨_, _, rfl, rfl⟩

/-- Witness for C5 at concrete elements: with nothing registered, the
pointer and typedef builders abort on their unregistered type-id. -/
theorem C5_witness :
    build_pointer_type_def empty_maps
        (.elem "pointer-type-def" [("type-id", "undef"), ("id", "p1")] []) true true
      = .fatal
    ∧ build_typedef_decl empty_maps
        (.elem "typedef-decl" [("type-id", "undef"), ("id", "td1")] []) true true
      = .fatal :=
  ⟨(C5_thm empty_maps [("type-id", "undef"), ("id", "p1")] [] true true).1 rfl,
   (C5_thm empty_maps [("type-id", "undef"), ("id", "td1")] [] true true).2.1 rfl⟩

/-- C7: whenever the class builder succeeds, a class whose
is-declaration-only attribute is yes is a stub — declaration-only, with
no bases, no members of any kind and no earlier declaration — no matter
what child elements the element carries; and a class built with an
earlier-declaration back-reference (a definition) is never itself
flagged declaration-only. -/
theorem C7_thm (m : ReadMaps) (node : XmlNode) (u a : Bool) (c : TypeNode) (m2 : ReadMaps)
    (h : build_class_decl m node u a = .ok c m2) :
    (xml_node_get_attribute node "is-declaration-only" = some "yes" →
      c.class_is_declaration_only = true
      ∧ c.class_bases = []
      ∧ c.class_data_members = []
      ∧ c.class_member_fns = []
      ∧ c.class_member_fn_tmpls = []
      ∧ c.class_member_class_tmpls = []
      ∧ c.class_earlier_declaration = none)
    ∧ ((c.class_earlier_declaration).isSome → c.class_is_declaration_only = false) := by
  cases node with
  | text s =>
    rw [build_class_decl] at h
    exact absurd h (by simp)
  | elem tag attrs kids =>
    simp only [build_class_decl] at h
    by_cases htag : tag = "class-decl"
    case neg =>
      rw [if_neg htag] at h
      exact absurd h (by simp)
    case pos =>
    rw [if_pos htag] at h
    by_cases hft : class_first_time_ok m (XmlNode.elem tag attrs [])
    case neg =>
      simp only [Bool.not_eq_true] at hft
      simp [hft] at h
    case pos =>
    rw [hft] at h
    simp only [Bool.not_true, Bool.false_eq_true, if_false] at h
    by_cases hboth :
        (class_earlier_of m (XmlNode.elem tag attrs [])).isSome
          && (read_is_declaration_only (XmlNode.elem tag attrs []) false).2
    case pos =>
      simp [hboth] at h
    case neg =>
    simp only [Bool.not_eq_true] at hboth
    rw [hboth] at h
    simp only [Bool.false_eq_true, if_false] at h
    by_cases hdo : (read_is_declaration_only (XmlNode.elem tag attrs []) false).2
    case pos =>
      rw [hdo] at h
      simp only [if_true] at h
      simp only [BuildRes.ok.injEq] at h
      constructor
      · intro _
        rw [← h.1]
        exact ⟨rfl, rfl, rfl, rfl, rfl, rfl, rfl⟩
      · intro habs
        rw [← h.1] at habs
        simp [TypeNode.class_earlier_declaration] at habs
    case neg =>
      simp only [Bool.not_eq_true] at hdo
      rw [hdo] at h
      simp only [Bool.false_eq_true, if_false] at h
      split at h
      · exact absurd h (by simp)
      · simp only [BuildRes.ok.injEq] at h
        constructor
        · intro hattr
          have hattr2 : assoc_find attrs "is-declaration-only" = some "yes" := by
            simpa [xml_node_get_attribute, XmlNode.attrs] using hattr
          have : (read_is_declaration_only (XmlNode.elem tag attrs []) false).2 = true := by
            simp [read_is_declaration_only, xml_node_get_attribute, XmlNode.attrs, hattr2]
          rw [hdo] at this
          exact absurd this (by simp)
        · intro _
          rw [← h.1]
          rfl

/-- A declaration-only class-decl element carrying a data-member child
(which the claim says must be ignored). -/
def C7_node : XmlNode :=
  .elem "class-decl" [("name", "T"), ("id", "t1"), ("is-declaration-only", "yes")]
    [ .elem "data-member" [("access", "public")]
        [ .elem "var-decl" [("name", "x"), ("type-id", "t-int")] [] ] ]

/-- The stub produced for C7_node. -/
def C7_stub : TypeNode :=
  .class_decl "T" 0 0 .no_loc .VISIBILITY_DEFAULT true none [] [] [] [] []

/-- Registry after building C7_node from empty tables. -/
def C7_m2 : ReadMaps := ⟨[("t1", C7_stub)], [], []⟩

/-- A declaration-only class D registered under D1, and a definition
element for it under a fresh id D2. -/
def C7_declD : TypeNode :=
  .class_decl "D" 0 0 .no_loc .VISIBILITY_DEFAULT true none [] [] [] [] []

/-- Registry holding the declaration-only class C7_declD. -/
def C7_dm : ReadMaps := ⟨[("D1", C7_declD)], [], []⟩

/-- The class-decl element defining D (def-of-decl-id D1). -/
def C7_def_node : XmlNode :=
  .elem "class-decl" [("name", "D"), ("id", "D2"), ("def-of-decl-id", "D1")] []

/-- The definition node built for C7_def_node. -/
def C7_defD : TypeNode :=
  .class_decl "D" 0 0 .no_loc .VISIBILITY_NONE false (some C7_declD) [] [] [] [] []

/-- Registry after building C7_def_node from C7_dm. -/
def C7_dm2 : ReadMaps := ⟨[("D2", C7_defD), ("D1", C7_declD)], [], []⟩

/-- Witness for C7: the concrete declaration-only element with a
data-member child yields a member-less stub, and the concrete
definition (which records an earlier declaration) is not
declaration-only. -/
theorem C7_witness :
    C7_stub.class_is_declaration_only = true
    ∧ C7_stub.class_data_members = []
    ∧ C7_stub.class_bases = []
    ∧ C7_defD.class_is_declaration_only = false :=
  ⟨((C7_thm empty_maps C7_node true true C7_stub C7_m2 rfl).1 rfl).1,
   ((C7_thm empty_maps C7_node true true C7_stub C7_m2 rfl).1 rfl).2.2.1,
   ((C7_thm empty_maps C7_node true true C7_stub C7_m2 rfl).1 rfl).2.1,
   (C7_thm C7_dm C7_def_node true true C7_defD C7_dm2 rfl).2 rfl⟩

/-- A declaration-only class S registered under the id C1. -/
def C1_stub_node : XmlNode :=
  .elem "class-decl" [("name", "S"), ("id", "C1"), ("is-declaration-only", "yes")] []

/-- A later full definition for the same id, linking the stub through
def-of-decl-id. -/
def C1_def_node : XmlNode :=
  .elem "class-decl"
    [("name", "S"), ("id", "C1"), ("size-in-bits", "32"), ("def-of-decl-id", "C1")] []

/-- The stub built for C1_stub_node. -/
def C1_stub : TypeNode :=
  .class_decl "S" 0 0 .no_loc .VISIBILITY_DEFAULT true none [] [] [] [] []

/-- The definition built for C1_def_node: it records the earlier
declaration back-reference to the stub. -/
def C1_definition : TypeNode :=
  .class_decl "S" 32 0 .no_loc .VISIBILITY_NONE false (some C1_stub) [] [] [] [] []

/-- The registry after the stub element: C1 maps to the stub. -/
def C1_m1 : ReadMaps := ⟨[("C1", C1_stub)], [], []⟩

/-- C1: processing the stub element registers the stub under C1, and
processing the later definition element records the earlier-declaration
back-reference to the stub — but the registry lookup of C1 afterwards
still yields the stub, not the definition: the final
`ctxt.key_type_decl(decl, id)` of `build_class_decl`
(abg-reader.cc:1948) refuses to overwrite an existing entry, and
`key_replacement_of_type_decl`, the documented replace operation for
declaration-to-definition promotion, is never called anywhere in the
reader.  The tables after the definition element are unchanged
(`C1_m1`), refuting the claim's second half while confirming its
first. -/
theorem C1_thm :
    build_class_decl empty_maps C1_stub_node true true = .ok C1_stub C1_m1
    ∧ build_class_decl C1_m1 C1_def_node true true = .ok C1_definition C1_m1
    ∧ C1_definition.class_earlier_declaration = some C1_stub
    ∧ C1_stub.class_is_declaration_only = true
    ∧ C1_stub.class_data_members = []
    ∧ C1_stub.class_bases = []
    ∧ get_type_decl C1_m1 "C1" = some C1_stub
    ∧ C1_stub ≠ C1_definition := by
  refine ⟨rfl, rfl, rfl, rfl, rfl, rfl, rfl, ?_⟩
  intro hcontra
  have hflag := congrArg TypeNode.class_is_declaration_only hcontra
  simp [C1_stub, C1_definition, TypeNode.class_is_declaration_only] at hflag

end Abg
